import Mathlib

/-!
The package example of ultimate-gopher: 00-baby-gopher/02-packages/example

A shallow embedding of package foo (foo/foo.go) and of the demonstration
routine (main.go), followed by the properties of the record, its constructor
and its display text.

Go strings are embedded as Lean strings, that is, as sequences of Unicode
characters; a Go string holding bytes that are not valid UTF-8 has no
counterpart here. No operation of the program looks inside a string: strings
are only stored, compared and concatenated. A Go struct value is a Lean structure
with the same fields in the same order; Go's value equality on structs
(field by field) is Lean's equality on the structure.
-/

namespace Gopher

namespace foo

/-- The record of foo/foo.go, lines 3-7: two exported fields and the
unexported field password, all of type string. -/
structure User where
  FirstName : String
  LastName : String
  password : String
  deriving DecidableEq, Repr

/-- The constructor of foo/foo.go, lines 9-15: a composite literal that stores
each argument in the field of the same name. The Go signature has the single
result User, with no error value beside it. -/
def NewUser (firstName : String) (lastName : String) (password : String) : User :=
  { FirstName := firstName
    LastName := lastName
    password := password }

/-- The Go assignment statement u.FirstName = v on a User variable: the field
FirstName is replaced, the rest of the struct value is kept. -/
def User.assignFirstName (u : User) (v : String) : User :=
  { u with FirstName := v }

/-- The Go assignment statement u.LastName = v on a User variable. -/
def User.assignLastName (u : User) (v : String) : User :=
  { u with LastName := v }

/-- A write to one of the two exported fields of a User variable. -/
inductive Write where
  | firstName (v : String)
  | lastName (v : String)
  deriving DecidableEq, Repr

/-- The effect of one write on the value held by the variable. -/
def Write.apply (w : Write) (u : User) : User :=
  match w with
  | .firstName v => u.assignFirstName v
  | .lastName v => u.assignLastName v

/-- A sequence of writes, performed from left to right. -/
def applyWrites (ws : List Write) (u : User) : User :=
  ws.foldl (fun acc w => w.apply acc) u

/-- The reflective view of a User that the formatting library walks: the
declared identifier of each field with its value, in declaration order
(foo/foo.go, lines 4-6). -/
def User.fields (u : User) : List (String × String) :=
  [("FirstName", u.FirstName), ("LastName", u.LastName), ("password", u.password)]

end foo

namespace fmt

/-- The loop body of the struct case of the standard library's value printer
under the verb %+v, for string fields: field number i is preceded by one space
when i > 0, then come the field name, a colon and the string itself (a string
under %v is written as it is, without quotes, width or precision). -/
def printFields : Nat → List (String × String) → String
  | _, [] => ""
  | i, (name, value) :: rest =>
    (if i > 0 then " " else "") ++ name ++ ":" ++ value ++ printFields (i + 1) rest

/-- The struct case of the standard library's value printer under %+v: an
opening brace, the fields, a closing brace. User declares no String, Error or
Format method, so the printer takes this reflective path. -/
def printStruct (fields : List (String × String)) : String :=
  "\x7b" ++ printFields 0 fields ++ "\x7d"

/-- The text that Sprintf("%+v", user) produces for a User. -/
def sprintPlusV (u : foo.User) : String :=
  printStruct u.fields

end fmt

/-- The demonstration routine of main.go, lines 8-12, as the text it writes to
standard output: the user built from the three literals, printed with the
format "%+v\n". -/
def main : String :=
  let user := foo.NewUser "Homer" "Simpson" "s3cr37"
  fmt.sprintPlusV user ++ "\n"

/-! ## Properties -/

open foo fmt

/-- The display text of any User, written out: the three declared labels, each
followed by a colon and the value of its field, separated by single spaces and
enclosed in braces. -/
theorem sprintPlusV_eq (u : User) :
    sprintPlusV u
      = "\x7bFirstName:" ++ u.FirstName ++ " LastName:" ++ u.LastName
          ++ " password:" ++ u.password ++ "\x7d" := by
  apply String.ext
  simp [sprintPlusV, printStruct, printFields, User.fields, String.data_append]

/-- A write to an exported field keeps the field password. -/
theorem write_apply_password (w : Write) (u : User) :
    (w.apply u).password = u.password := by
  cases w <;> rfl

/-- A sequence of writes to the exported fields keeps the field password. -/
theorem applyWrites_password (ws : List Write) (u : User) :
    (applyWrites ws u).password = u.password := by
  induction ws generalizing u with
  | nil => rfl
  | cons w rest ih =>
    show (applyWrites rest (w.apply u)).password = u.password
    rw [ih, write_apply_password]

/-- C1: for every triple of strings (a, b, c), NewUser a b c is a User whose
FirstName is a, whose LastName is b and whose unexported field password is c. -/
theorem NewUser_fields (a b c : String) :
    (NewUser a b c).FirstName = a
      ∧ (NewUser a b c).LastName = b
      ∧ (NewUser a b c).password = c :=
  ⟨rfl, rfl, rfl⟩

/-- C2: for every User built by NewUser and every string v, assigning v to
FirstName and then reading FirstName gives v, and likewise for LastName. -/
theorem assign_then_read (a b c v : String) :
    ((NewUser a b c).assignFirstName v).FirstName = v
      ∧ ((NewUser a b c).assignLastName v).LastName = v :=
  ⟨rfl, rfl⟩

/-- C4: for every triple of strings (a, b, c), the %+v display text of
NewUser a b c is the text "FirstName:" a " LastName:" b " password:" c between
braces; in particular the user built from Homer, Simpson and s3cr37 displays
as the line documented in main.go, line 12. -/
theorem sprintPlusV_NewUser :
    (∀ a b c : String,
        sprintPlusV (NewUser a b c)
          = "\x7bFirstName:" ++ a ++ " LastName:" ++ b ++ " password:" ++ c ++ "\x7d")
      ∧ sprintPlusV (NewUser "Homer" "Simpson" "s3cr37")
          = "\x7bFirstName:Homer LastName:Simpson password:s3cr37\x7d" :=
  ⟨fun a b c => sprintPlusV_eq (NewUser a b c), by decide⟩

/-- C5, as stated, fails: the display text of the user built from Homer,
Simpson and s3cr37 is not the text with the label secret. -/
theorem display_label_secret_refuted :
    sprintPlusV (NewUser "Homer" "Simpson" "s3cr37")
      ≠ "\x7bFirstName:Homer LastName:Simpson secret:s3cr37\x7d" := by
  decide

/-- C5, amended: the third declared identifier is password, so the
demonstration routine prints the text with the labels FirstName, LastName and
password followed by a newline; the labels of the display are the declared
identifiers of the fields, in declaration order, and every User is displayed
in the form FirstName:v LastName:v password:v between braces. -/
theorem display_labels_declared :
    main = "\x7bFirstName:Homer LastName:Simpson password:s3cr37\x7d\n"
      ∧ (∀ u : User, (u.fields.map Prod.fst) = ["FirstName", "LastName", "password"])
      ∧ (∀ u : User,
          sprintPlusV u
            = "\x7b" ++ "FirstName" ++ ":" ++ u.FirstName
                ++ " " ++ "LastName" ++ ":" ++ u.LastName
                ++ " " ++ "password" ++ ":" ++ u.password ++ "\x7d") := by
  refine ⟨by decide, fun u => rfl, fun u => ?_⟩
  apply String.ext
  simp [sprintPlusV, printStruct, printFields, User.fields, String.data_append]

/-- C6: for every triple of strings (a, b, c), the display text of
NewUser a b c contains the value c of the unexported field as a substring. -/
theorem display_contains_password (a b c : String) :
    ∃ before after : String, sprintPlusV (NewUser a b c) = before ++ c ++ after :=
  ⟨"\x7bFirstName:" ++ a ++ " LastName:" ++ b ++ " password:", "\x7d",
    sprintPlusV_eq (NewUser a b c)⟩

/-- C7: NewUser is total and never fails: every triple of strings, the triple
of empty strings included, is mapped to a User value that holds the three
arguments unchanged; nothing is rejected. -/
theorem NewUser_total :
    (∀ a b c : String, ∃ u : User,
        NewUser a b c = u ∧ u.FirstName = a ∧ u.LastName = b ∧ u.password = c)
      ∧ NewUser "" "" "" = { FirstName := "", LastName := "", password := "" } :=
  ⟨fun a b c => ⟨NewUser a b c, rfl, rfl, rfl, rfl⟩, rfl⟩

/-- C8: assigning to FirstName leaves LastName and password unchanged,
assigning to LastName leaves FirstName and password unchanged, and the
password set by NewUser survives every sequence of writes to the exported
fields. -/
theorem exported_writes_frame :
    (∀ (u : User) (v : String),
        (u.assignFirstName v).LastName = u.LastName
          ∧ (u.assignFirstName v).password = u.password)
      ∧ (∀ (u : User) (v : String),
          (u.assignLastName v).FirstName = u.FirstName
            ∧ (u.assignLastName v).password = u.password)
      ∧ (∀ (a b c : String) (ws : List Write),
          (applyWrites ws (NewUser a b c)).password = c) :=
  ⟨fun _ _ => ⟨rfl, rfl⟩, fun _ _ => ⟨rfl, rfl⟩,
    fun a b c ws => applyWrites_password ws (NewUser a b c)⟩

/-- C9: NewUser is injective: equal results come from equal arguments, and two
users that differ only in password are different values. -/
theorem NewUser_injective (a b c a' b' c' : String) :
    (NewUser a b c = NewUser a' b' c' → a = a' ∧ b = b' ∧ c = c')
      ∧ (c ≠ c' → NewUser a b c ≠ NewUser a b c') := by
  constructor
  · intro h
    exact ⟨congrArg User.FirstName h, congrArg User.LastName h, congrArg User.password h⟩
  · intro hne h
    exact hne (congrArg User.password h)

/-- Witness for C9: equal arguments satisfy the first hypothesis, and the
passwords s3cr37 and hunter2 satisfy the second. -/
theorem NewUser_injective_witness :
    (NewUser "Homer" "Simpson" "s3cr37" = NewUser "Homer" "Simpson" "s3cr37"
        ∧ "Homer" = "Homer" ∧ "Simpson" = "Simpson" ∧ "s3cr37" = "s3cr37")
      ∧ ("s3cr37" ≠ "hunter2"
        ∧ NewUser "Homer" "Simpson" "s3cr37" ≠ NewUser "Homer" "Simpson" "hunter2") :=
  ⟨⟨rfl, (NewUser_injective "Homer" "Simpson" "s3cr37" "Homer" "Simpson" "s3cr37").1 rfl⟩,
    ⟨by decide,
      (NewUser_injective "Homer" "Simpson" "s3cr37" "Homer" "Simpson" "hunter2").2
        (by decide)⟩⟩

end Gopher
